import Mathlib

/-!
Verification of the ATS-Resume-Generator frontend
(`src/frontend/src/ResumeGenerator.jsx`) against its specification.

The component is embedded shallowly: the React component state is a
structure, the `generate` handler is a function from the state and the
network environment to the list of observable steps it performs (state
setters, the fetch call, the triggered file download), and the rendered
attributes that matter (the button's `disabled`, the error toast) are
functions of the state.  The backend keyword extractor is not part of the
repository's sources, so it is modelled from the specification where a
claim needs it.
-/

namespace ATSResume

/-- JavaScript `String.prototype.trim` as used at line 10 of
`ResumeGenerator.jsx` (`jdUrl.trim()`): strip leading and trailing
whitespace characters. -/
def jsTrim (s : String) : String :=
  ⟨((s.data.dropWhile Char.isWhitespace).reverse.dropWhile Char.isWhitespace).reverse⟩

/-- The component-local React state of `ResumeGenerator`
(lines 4-7: `jdUrl`, `greyHat`, `loading`, `error`). -/
structure ComponentState where
  jdUrl : String
  greyHat : Bool
  loading : Bool
  error : String
deriving Repr, DecidableEq

/-- The initial component state from the four `useState` initialisers
(lines 4-7): empty URL, grey-hat toggle on, not loading, no error. -/
def initState : ComponentState :=
  { jdUrl := "", greyHat := true, loading := false, error := "" }

/-- The JSON request body built at lines 23-26: an object with exactly the
two fields `jd_url` and `grey_hat`. -/
structure RequestBody where
  jd_url : String
  grey_hat : Bool
deriving Repr, DecidableEq

/-- The HTTP request issued by `fetch` at lines 20-27: URL, method,
`Content-Type` header, JSON body. -/
structure Request where
  url : String
  method : String
  contentType : String
  body : RequestBody
deriving Repr, DecidableEq

/-- The outcome of awaiting the `fetch` call: either the promise rejects
with an exception carrying a message (network failure, lines 44-45 catch
it), or a response arrives with an `ok` flag (true exactly for 2xx
statuses), a binary body, and whatever stage-failure error text the
backend put in it (the code never reads that text; it is carried here so
that claims about it can be stated). -/
inductive NetOutcome where
  | netError (msg : String)
  | response (ok : Bool) (body : List Nat) (errorText : String)
deriving Repr, DecidableEq

/-- The environment `generate` runs in: the configured base URL
(`import.meta.env.VITE_API_BASE_URL`, line 19) and the network outcome of
the single fetch. -/
structure Env where
  apiBase : String
  outcome : NetOutcome
deriving Repr, DecidableEq

/-- The observable steps the `generate` handler performs, in order:
React state setters, the fetch call, and the triggered file download. -/
inductive Step where
  | setLoading (b : Bool)
  | setError (msg : String)
  | fetchCall (req : Request)
  | downloadFile (name : String) (content : List Nat)
deriving Repr, DecidableEq

/-- The request `generate` builds at lines 20-27. -/
def builtRequest (s : ComponentState) (env : Env) : Request :=
  { url := env.apiBase ++ "/generate-resume-from-url"
    method := "POST"
    contentType := "application/json"
    body := { jd_url := s.jdUrl, grey_hat := s.greyHat } }

/-- The `generate` handler (lines 9-49) as the trace of steps it performs.
Line 10 guards on the trimmed URL being falsy (empty); otherwise loading
is set, the error cleared, the fetch performed; a non-ok response throws
`Error("Failed to generate resume")` which the catch turns into the error
message; a rejecting fetch surfaces `err.message || "Something went
wrong"`; an ok response is downloaded as `ATS_Resume.pdf`; the `finally`
block resets loading. -/
def generate (s : ComponentState) (env : Env) : List Step :=
  if jsTrim s.jdUrl = "" then
    [Step.setError "Please paste a Job Description URL"]
  else
    [Step.setLoading true, Step.setError "",
     Step.fetchCall (builtRequest s env)] ++
    (match env.outcome with
      | NetOutcome.netError msg =>
          [Step.setError (if msg = "" then "Something went wrong" else msg)]
      | NetOutcome.response ok body _ =>
          if ok then [Step.downloadFile "ATS_Resume.pdf" body]
          else [Step.setError "Failed to generate resume"]) ++
    [Step.setLoading false]

/-- Effect of one step on the component state: the two setters update
their field; fetch and download do not change React state. -/
def applyStep (s : ComponentState) : Step → ComponentState
  | Step.setLoading b => { s with loading := b }
  | Step.setError m => { s with error := m }
  | Step.fetchCall _ => s
  | Step.downloadFile _ _ => s

/-- The component state after a complete run of `generate`. -/
def runGenerate (s : ComponentState) (env : Env) : ComponentState :=
  (generate s env).foldl applyStep s

/-- The fetch calls issued in a trace. -/
def fetchCalls (tr : List Step) : List Request :=
  tr.filterMap (fun st =>
    match st with
    | Step.fetchCall r => some r
    | _ => none)

/-- The file downloads triggered in a trace (file name and content). -/
def downloads (tr : List Step) : List (String × List Nat) :=
  tr.filterMap (fun st =>
    match st with
    | Step.downloadFile n c => some (n, c)
    | _ => none)

/-- The Generate button's `disabled` attribute, line 77: equal to the
`loading` state. -/
def buttonDisabled (s : ComponentState) : Bool := s.loading

/-- The error toast, line 90: rendered with the error text exactly when
the error state is non-empty. -/
def renderToast (s : ComponentState) : Option String :=
  if s.error = "" then none else some s.error

/-- The URL input's `onChange` handler, line 62: store the entered text. -/
def setUrlInput (s : ComponentState) (u : String) : ComponentState :=
  { s with jdUrl := u }

/-- The grey-hat checkbox's `onChange` handler, line 71:
`setGreyHat(!greyHat)`. -/
def toggleGreyHat (s : ComponentState) : ComponentState :=
  { s with greyHat := !s.greyHat }

/-- A failing network outcome in the sense of the spec: the fetch threw,
or the response status was non-2xx. -/
def isFailure : NetOutcome → Bool
  | NetOutcome.netError _ => true
  | NetOutcome.response ok _ _ => !ok

/- Helper lemmas about the trace. -/

/-- When the trimmed URL is empty the trace is the single rejection step
(lines 10-13). -/
theorem generate_rejected (s : ComponentState) (env : Env)
    (h : jsTrim s.jdUrl = "") :
    generate s env = [Step.setError "Please paste a Job Description URL"] := by
  unfold generate
  rw [if_pos h]

/-- When validation passes, the fetch calls of the trace are exactly the
one built request. -/
theorem fetchCalls_generate (s : ComponentState) (env : Env)
    (h : jsTrim s.jdUrl ≠ "") :
    fetchCalls (generate s env) = [builtRequest s env] := by
  unfold generate
  rw [if_neg h]
  rcases env with ⟨base, outcome⟩
  cases outcome with
  | netError msg => simp [fetchCalls]
  | response ok body et =>
    cases ok <;> simp [fetchCalls]

/-- Every request in the trace carries the component's grey-hat flag as
its `grey_hat` field. -/
theorem fetch_body_grey_hat (s : ComponentState) (env : Env) (req : Request)
    (h : req ∈ fetchCalls (generate s env)) :
    req.body.grey_hat = s.greyHat := by
  by_cases ht : jsTrim s.jdUrl = ""
  · rw [generate_rejected s env ht] at h
    simp [fetchCalls] at h
  · rw [fetchCalls_generate s env ht] at h
    simp at h
    rw [h]
    rfl

/-- C1: for every `jd_url` value that is the empty string, `generate`
rejects before any network call: no fetch is issued and the inline error
message is set instead. -/
theorem C1_empty_url_rejected (s : ComponentState) (env : Env)
    (h : s.jdUrl = "") :
    fetchCalls (generate s env) = [] ∧
    runGenerate s env = { s with error := "Please paste a Job Description URL" } := by
  have ht : jsTrim s.jdUrl = "" := by rw [h]; rfl
  have hg := generate_rejected s env ht
  constructor
  · rw [hg]; simp [fetchCalls]
  · unfold runGenerate
    rw [hg]
    simp [applyStep]

/-- C1 witness: concrete empty-URL state and environment. -/
theorem C1_empty_url_rejected_witness :
    ({ jdUrl := "", greyHat := true, loading := false, error := "" } :
        ComponentState).jdUrl = "" ∧
    (fetchCalls (generate
        { jdUrl := "", greyHat := true, loading := false, error := "" }
        { apiBase := "http://localhost:8000",
          outcome := NetOutcome.response true [37] "" }) = [] ∧
      runGenerate
        { jdUrl := "", greyHat := true, loading := false, error := "" }
        { apiBase := "http://localhost:8000",
          outcome := NetOutcome.response true [37] "" } =
        { jdUrl := "", greyHat := true, loading := false,
          error := "Please paste a Job Description URL" }) :=
  ⟨rfl, C1_empty_url_rejected _ _ rfl⟩

/-- C2 counterexample: the claim quantifies over every non-empty `jd_url`,
but the guard at line 10 tests the trimmed URL, so the non-empty input
`" "` issues no POST at all. -/
theorem C2_counterexample :
    (" " : String) ≠ "" ∧
    fetchCalls (generate
      { jdUrl := " ", greyHat := true, loading := false, error := "" }
      { apiBase := "http://localhost:8000",
        outcome := NetOutcome.response true [37] "" }) = [] := by
  constructor
  · decide
  · rfl

/-- C2 (amended to URLs that are non-empty after trimming): for every such
`jd_url` and every grey-hat flag value, `generate` performs exactly one
POST to `/generate-resume-from-url` under the configured base URL, with
`Content-Type: application/json` and a body of exactly the two fields
`jd_url` (the entered URL string, untrimmed) and `grey_hat` (the toggle's
value). -/
theorem C2_single_post (s : ComponentState) (env : Env)
    (h : jsTrim s.jdUrl ≠ "") :
    fetchCalls (generate s env) =
      [{ url := env.apiBase ++ "/generate-resume-from-url"
         method := "POST"
         contentType := "application/json"
         body := { jd_url := s.jdUrl, grey_hat := s.greyHat } }] :=
  fetchCalls_generate s env h

/-- C2 witness: a concrete URL and environment. -/
theorem C2_single_post_witness :
    jsTrim "https://example.com/job/123" ≠ "" ∧
    fetchCalls (generate
      { jdUrl := "https://example.com/job/123", greyHat := false,
        loading := false, error := "" }
      { apiBase := "http://localhost:8000",
        outcome := NetOutcome.response true [37] "" }) =
      [{ url := "http://localhost:8000" ++ "/generate-resume-from-url"
         method := "POST"
         contentType := "application/json"
         body := { jd_url := "https://example.com/job/123", grey_hat := false } }] :=
  ⟨by decide, C2_single_post _ _ (by decide)⟩

/-- C3: for every request whose HTTP response is successful (`ok`, i.e.
2xx), `generate` triggers exactly one file download, named
`ATS_Resume.pdf` with the response body as its content, and leaves the
error message empty. -/
theorem C3_success_download (s : ComponentState) (env : Env)
    (body : List Nat) (et : String)
    (h : jsTrim s.jdUrl ≠ "")
    (hr : env.outcome = NetOutcome.response true body et) :
    downloads (generate s env) = [("ATS_Resume.pdf", body)] ∧
    (runGenerate s env).error = "" := by
  unfold runGenerate generate
  rw [if_neg h, hr]
  constructor
  · simp [downloads]
  · simp [applyStep]

/-- C3 witness: a concrete successful run. -/
theorem C3_success_download_witness :
    jsTrim "https://example.com/job/123" ≠ "" ∧
    ({ apiBase := "http://localhost:8000",
       outcome := NetOutcome.response true [37, 80, 68, 70] "" } : Env).outcome =
      NetOutcome.response true [37, 80, 68, 70] "" ∧
    (downloads (generate
        { jdUrl := "https://example.com/job/123", greyHat := true,
          loading := false, error := "" }
        { apiBase := "http://localhost:8000",
          outcome := NetOutcome.response true [37, 80, 68, 70] "" }) =
        [("ATS_Resume.pdf", [37, 80, 68, 70])] ∧
      (runGenerate
        { jdUrl := "https://example.com/job/123", greyHat := true,
          loading := false, error := "" }
        { apiBase := "http://localhost:8000",
          outcome := NetOutcome.response true [37, 80, 68, 70] "" }).error = "") :=
  ⟨by decide, rfl, C3_success_download _ _ _ _ (by decide) rfl⟩

/-- C4 counterexample: on a non-2xx response the code throws a fixed
`Error("Failed to generate resume")` (line 30) and never reads the
response's own error text, so a backend stage-failure text such as
`"FetchError: page unreachable"` is not what the toast shows. -/
theorem C4_counterexample :
    renderToast (runGenerate
      { jdUrl := "https://example.com/job/123", greyHat := true,
        loading := false, error := "" }
      { apiBase := "http://localhost:8000",
        outcome := NetOutcome.response false [] "FetchError: page unreachable" }) =
      some "Failed to generate resume" ∧
    ("Failed to generate resume" : String) ≠ "FetchError: page unreachable" := by
  constructor
  · rfl
  · decide

/-- C4 (amended): for every request whose HTTP response is non-2xx, the
UI displays an error message inline in the toast, but it is the fixed
client-side text `"Failed to generate resume"`, independent of the
response's own error text. -/
theorem C4_non2xx_fixed_toast (s : ComponentState) (env : Env)
    (body : List Nat) (et : String)
    (h : jsTrim s.jdUrl ≠ "")
    (hr : env.outcome = NetOutcome.response false body et) :
    renderToast (runGenerate s env) = some "Failed to generate resume" := by
  unfold runGenerate generate
  rw [if_neg h, hr]
  simp [applyStep, renderToast]

/-- C4 witness: a concrete non-2xx run. -/
theorem C4_non2xx_fixed_toast_witness :
    jsTrim "https://example.com/job/123" ≠ "" ∧
    ({ apiBase := "http://localhost:8000",
       outcome := NetOutcome.response false [] "GenerationError" } : Env).outcome =
      NetOutcome.response false [] "GenerationError" ∧
    renderToast (runGenerate
      { jdUrl := "https://example.com/job/123", greyHat := true,
        loading := false, error := "" }
      { apiBase := "http://localhost:8000",
        outcome := NetOutcome.response false [] "GenerationError" }) =
      some "Failed to generate resume" :=
  ⟨by decide, rfl, C4_non2xx_fixed_toast _ _ _ _ (by decide) rfl⟩

/-- C5: for every request that fails (non-2xx response or an exception
thrown during fetch/download handling), no partial output is returned:
no file download is triggered, and starting from an idle (non-loading)
state the only change to the component state is a non-empty error
message. -/
theorem C5_failure_no_partial_output (s : ComponentState) (env : Env)
    (hl : s.loading = false) (h : jsTrim s.jdUrl ≠ "")
    (hf : isFailure env.outcome = true) :
    downloads (generate s env) = [] ∧
    ∃ e, e ≠ "" ∧ runGenerate s env = { s with error := e } := by
  obtain ⟨u, g, l, er⟩ := s
  simp only at hl
  subst hl
  unfold runGenerate generate
  rw [if_neg h]
  rcases env with ⟨base, outcome⟩
  cases outcome with
  | netError msg =>
    refine ⟨by simp [downloads], if msg = "" then "Something went wrong" else msg, ?_, ?_⟩
    · by_cases hm : msg = "" <;> simp [hm]
    · simp [applyStep]
  | response ok body et =>
    cases ok with
    | true => simp [isFailure] at hf
    | false =>
      refine ⟨by simp [downloads], "Failed to generate resume", by decide, ?_⟩
      simp [applyStep]

/-- C5 witness: a concrete failing (network-error) run. -/
theorem C5_failure_no_partial_output_witness :
    ({ jdUrl := "https://example.com/job/123", greyHat := true,
       loading := false, error := "" } : ComponentState).loading = false ∧
    jsTrim "https://example.com/job/123" ≠ "" ∧
    isFailure ({ apiBase := "http://localhost:8000",
                 outcome := NetOutcome.netError "NetworkError" } : Env).outcome = true ∧
    (downloads (generate
        { jdUrl := "https://example.com/job/123", greyHat := true,
          loading := false, error := "" }
        { apiBase := "http://localhost:8000",
          outcome := NetOutcome.netError "NetworkError" }) = [] ∧
      ∃ e, e ≠ "" ∧
        runGenerate
          { jdUrl := "https://example.com/job/123", greyHat := true,
            loading := false, error := "" }
          { apiBase := "http://localhost:8000",
            outcome := NetOutcome.netError "NetworkError" } =
          { jdUrl := "https://example.com/job/123", greyHat := true,
            loading := false, error := e }) :=
  ⟨rfl, by decide, rfl, C5_failure_no_partial_output _ _ rfl (by decide) rfl⟩

/-!
The Keyword/Skill Extractor is a backend component; the backend sources
are not under `src/` (only the frontend and the README are), so for claim
C6 it is modelled from the specification (sections 4.2 and 3).
-/

/-- Split a character list at spaces, keeping the (possibly empty)
segments between them. -/
def splitOnSpace : List Char → List Char → List String
  | [], acc => [String.mk acc.reverse]
  | c :: cs, acc =>
      if c = ' ' then String.mk acc.reverse :: splitOnSpace cs []
      else splitOnSpace cs (c :: acc)

/-- Modelled from the spec: the backend Keyword/Skill Extractor's
required-keyword derivation is missing from `src/`.  Section 4.2:
"Produces a required-keyword set via simple term/frequency or rule-based
extraction from the text" — the required set is a function of the
job-description text alone, not of the expansion flag.  Modelled as the
non-empty space-separated terms of the text. -/
def extractRequired (text : String) : List String :=
  (splitOnSpace text.data []).filter (fun w => w ≠ "")

/-- Modelled from the spec: the static lookup table of section 4.2,
"mapping a named technology to commonly co-occurring adjacent
technologies". -/
def skillAdjacency : List (String × List String) :=
  [("Python", ["Pandas", "NumPy"]),
   ("Docker", ["Kubernetes", "Compose"]),
   ("Kubernetes", ["Helm", "Docker"]),
   ("React", ["Redux", "TypeScript"])]

/-- Modelled from the spec: grey-hat expansion, the related-skills set
produced from the required keywords through the static lookup table. -/
def expandSkills (required : List String) : List String :=
  (required.map (fun k => (skillAdjacency.lookup k).getD [])).flatten

/-- The KeywordSet entity of the data model (section 3): required terms
plus the optional expanded set. -/
structure KeywordSet where
  required : List String
  expanded : List String
deriving Repr, DecidableEq

/-- Modelled from the spec: the extractor's output for a given text and
expansion flag — the required set always, the expanded set only when the
grey-hat flag is set (section 4.2). -/
def extractKeywords (text : String) (greyHat : Bool) : KeywordSet :=
  { required := extractRequired text
    expanded := if greyHat then expandSkills (extractRequired text) else [] }

/-- The resulting skills list of a KeywordSet: required keywords followed
by the expanded ones. -/
def skillsList (ks : KeywordSet) : List String :=
  ks.required ++ ks.expanded

/-- C6: for every job-description text, turning the grey-hat flag from
false to true never shrinks the skills list — every keyword produced with
the flag off is also present with the flag on. -/
theorem C6_grey_hat_monotone (text : String) (k : String)
    (hk : k ∈ skillsList (extractKeywords text false)) :
    k ∈ skillsList (extractKeywords text true) := by
  simp [skillsList, extractKeywords] at hk ⊢
  exact Or.inl hk

/-- C6 witness: concrete job text and keyword. -/
theorem C6_grey_hat_monotone_witness :
    "Python" ∈ skillsList (extractKeywords "Python Docker Kubernetes" false) ∧
    "Python" ∈ skillsList (extractKeywords "Python Docker Kubernetes" true) :=
  ⟨by decide, C6_grey_hat_monotone _ _ (by decide)⟩

/-- C7: the component-local toggle state maps directly to the request
flag: each checkbox click negates the stored grey-hat boolean, and every
request issued by `generate` carries the toggle state at the moment of
invocation as its `grey_hat` field. -/
theorem C7_toggle_maps_to_flag (s : ComponentState) :
    (toggleGreyHat s).greyHat = !s.greyHat ∧
    ∀ env req, req ∈ fetchCalls (generate s env) →
      req.body.grey_hat = s.greyHat := by
  exact ⟨rfl, fun env req h => fetch_body_grey_hat s env req h⟩

/-- C7 witness: a concrete state, click, and issued request. -/
theorem C7_toggle_maps_to_flag_witness :
    (toggleGreyHat
      { jdUrl := "https://example.com/job/123", greyHat := false,
        loading := false, error := "" }).greyHat = !false ∧
    ({ url := "http://localhost:8000/generate-resume-from-url"
       method := "POST"
       contentType := "application/json"
       body := { jd_url := "https://example.com/job/123", grey_hat := false } } :
        Request).body.grey_hat = false :=
  ⟨(C7_toggle_maps_to_flag _).1,
   (C7_toggle_maps_to_flag
      { jdUrl := "https://example.com/job/123", greyHat := false,
        loading := false, error := "" }).2
     { apiBase := "http://localhost:8000",
       outcome := NetOutcome.response true [37] "" }
     _ (by decide)⟩

/-- C8: loading invariant — on every run that passes validation the trace
sets `loading` to true before the fetch call and its last step resets
`loading` to false, on every exit path; the state after the run has
`loading = false`; and the Generate button's `disabled` attribute equals
the `loading` state, so a loading component cannot start a second
generation. -/
theorem C8_loading_invariant (s : ComponentState) (env : Env)
    (h : jsTrim s.jdUrl ≠ "") :
    (∃ req mid, generate s env =
        [Step.setLoading true, Step.setError "", Step.fetchCall req] ++
          mid ++ [Step.setLoading false]) ∧
    (runGenerate s env).loading = false ∧
    ∀ st : ComponentState, buttonDisabled st = st.loading := by
  refine ⟨?_, ?_, fun st => rfl⟩
  · unfold generate
    rw [if_neg h]
    rcases env with ⟨base, outcome⟩
    cases outcome with
    | netError msg =>
      exact ⟨_, [Step.setError (if msg = "" then "Something went wrong" else msg)], rfl⟩
    | response ok body et =>
      cases ok with
      | true => exact ⟨_, [Step.downloadFile "ATS_Resume.pdf" body], rfl⟩
      | false => exact ⟨_, [Step.setError "Failed to generate resume"], rfl⟩
  · unfold runGenerate generate
    rw [if_neg h]
    rcases env with ⟨base, outcome⟩
    cases outcome with
    | netError msg => simp [applyStep]
    | response ok body et => cases ok <;> simp [applyStep]

/-- C8 witness: a concrete validated run. -/
theorem C8_loading_invariant_witness :
    jsTrim "https://example.com/job/123" ≠ "" ∧
    ((∃ req mid, generate
        { jdUrl := "https://example.com/job/123", greyHat := true,
          loading := false, error := "" }
        { apiBase := "http://localhost:8000",
          outcome := NetOutcome.response true [37] "" } =
        [Step.setLoading true, Step.setError "", Step.fetchCall req] ++
          mid ++ [Step.setLoading false]) ∧
      (runGenerate
        { jdUrl := "https://example.com/job/123", greyHat := true,
          loading := false, error := "" }
        { apiBase := "http://localhost:8000",
          outcome := NetOutcome.response true [37] "" }).loading = false ∧
      ∀ st : ComponentState, buttonDisabled st = st.loading) :=
  ⟨by decide, C8_loading_invariant _ _ (by decide)⟩

/-- C9: the grey-hat flag defaults to on — the initial component state
has the toggle set to true, and a request sent after only typing a URL
(never touching the checkbox) carries `grey_hat = true`. -/
theorem C9_default_grey_hat :
    initState.greyHat = true ∧
    ∀ u env req, req ∈ fetchCalls (generate (setUrlInput initState u) env) →
      req.body.grey_hat = true := by
  refine ⟨rfl, fun u env req h => ?_⟩
  have hb := fetch_body_grey_hat _ env req h
  simpa [setUrlInput, initState] using hb

/-- C9 witness: a concrete typed URL and the issued request. -/
theorem C9_default_grey_hat_witness :
    initState.greyHat = true ∧
    ({ url := "http://localhost:8000/generate-resume-from-url"
       method := "POST"
       contentType := "application/json"
       body := { jd_url := "https://example.com/job/123", grey_hat := true } } :
        Request).body.grey_hat = true :=
  ⟨C9_default_grey_hat.1,
   C9_default_grey_hat.2 "https://example.com/job/123"
     { apiBase := "http://localhost:8000",
       outcome := NetOutcome.response true [37] "" }
     _ (by decide)⟩

/-- Dropping a whitespace-only prefix condition drops everything. -/
theorem dropWhile_whitespace_all (l : List Char)
    (hl : ∀ c ∈ l, c.isWhitespace) :
    l.dropWhile Char.isWhitespace = [] := by
  induction l with
  | nil => rfl
  | cons c cs ih =>
    rw [List.dropWhile_cons]
    simp [hl c (List.mem_cons_self c cs),
      ih (fun d hd => hl d (List.mem_cons_of_mem c hd))]

/-- A string of whitespace characters only trims to the empty string. -/
theorem jsTrim_all_whitespace (s : String)
    (hw : ∀ c ∈ s.data, c.isWhitespace) :
    jsTrim s = "" := by
  apply String.ext
  show ((s.data.dropWhile Char.isWhitespace).reverse.dropWhile
        Char.isWhitespace).reverse = "".data
  rw [dropWhile_whitespace_all s.data hw]
  rfl

/-- C10: a `jd_url` consisting only of whitespace characters is rejected
exactly like the empty string — the guard trims the input first, so no
network call is made and the only change to the component state is the
inline error message (in particular `loading` is untouched). -/
theorem C10_whitespace_rejected (s : ComponentState) (env : Env)
    (hw : ∀ c ∈ s.jdUrl.data, c.isWhitespace) :
    fetchCalls (generate s env) = [] ∧
    runGenerate s env = { s with error := "Please paste a Job Description URL" } := by
  have ht := jsTrim_all_whitespace s.jdUrl hw
  have hg := generate_rejected s env ht
  constructor
  · rw [hg]; simp [fetchCalls]
  · unfold runGenerate
    rw [hg]
    simp [applyStep]

/-- C10 witness: a non-empty whitespace-only URL. -/
theorem C10_whitespace_rejected_witness :
    (∀ c ∈ (" \t " : String).data, c.isWhitespace) ∧
    (fetchCalls (generate
        { jdUrl := " \t ", greyHat := true, loading := false, error := "" }
        { apiBase := "http://localhost:8000",
          outcome := NetOutcome.response true [37] "" }) = [] ∧
      runGenerate
        { jdUrl := " \t ", greyHat := true, loading := false, error := "" }
        { apiBase := "http://localhost:8000",
          outcome := NetOutcome.response true [37] "" } =
        { jdUrl := " \t ", greyHat := true, loading := false,
          error := "Please paste a Job Description URL" }) :=
  ⟨by decide, C10_whitespace_rejected _ _ (by decide)⟩

end ATSResume
